import Mathlib

/-!
Verification development for the preda-market-simulator library.

The Rust source is shallowly embedded: `f64` scalars are modelled by exact
rationals `ℚ` (all the properties at stake are order/clamp/structural facts,
not rounding facts), `chrono::DateTime<Utc>` timestamps and `Duration` values
by integer nanosecond counts `ℤ` (chrono's resolution), fallible operations by
`Except`, and every call to the ambient thread-local random generator by an
explicit draw parameter (a per-run entropy record for the simulation loop).
-/

/-! ## Time (chrono model): integer nanoseconds -/

/-- `chrono::Duration::num_seconds`: whole seconds, truncated toward zero. -/
def numSeconds (d : ℤ) : ℤ := Int.tdiv d 1000000000

/-- `chrono::Duration::num_days`: whole days, truncated toward zero. -/
def numDays (d : ℤ) : ℤ := Int.tdiv d 86400000000000

/-- `f64::clamp(lo, hi)` for `lo ≤ hi` (no NaN in the rational model),
branch for branch as in the Rust standard library. -/
def clampQ (x lo hi : ℚ) : ℚ := if x < lo then lo else if x > hi then hi else x

/-- Rust `f64::signum` on the rational model: `-1` for negatives, `1`
otherwise (a rational `0` corresponds to `+0.0`, whose signum is `1.0`). -/
def rustSignum (x : ℚ) : ℚ := if x < 0 then -1 else 1

/-! ## types.rs -/

/-- `struct BSI(f64)` — Belief State Index. The range invariant is *not*
baked into the type (as in the Rust source, where it is enforced only by the
validating factory); it is proved as a theorem. -/
structure BSI where
  value : ℚ
deriving DecidableEq

/-- `BSI::new`: validating factory, errors outside `[0, 1]`. -/
def BSI.new (value : ℚ) : Except String BSI :=
  if ¬ (0 ≤ value ∧ value ≤ 1) then
    .error ("BSI value must be between 0.0 and 1.0, got " ++ toString value)
  else
    .ok ⟨value⟩

/-- `BSI::distance_from`. -/
def BSI.distance_from (b : BSI) (threshold : ℚ) : ℚ := |b.value - threshold|

/-- `enum PositionType`. -/
inductive PositionType
  | Long
  | Short
deriving DecidableEq

/-- `struct Position`. -/
structure Position where
  participant_id : String
  size : ℚ
  entry_price : ℚ
  entry_time : ℤ
  position_type : PositionType
deriving DecidableEq

/-- `enum TradeType`. -/
inductive TradeType
  | Open
  | Close
  | Increase
  | Decrease
deriving DecidableEq

/-- `struct Trade`. -/
structure Trade where
  id : String
  participant_id : String
  trade_type : TradeType
  size : ℚ
  price : ℚ
  timestamp : ℤ
  bsi_at_trade : BSI
deriving DecidableEq

/-- `struct TimeInterval` (`end` is a Lean keyword; the field is `endTime`). -/
structure TimeInterval where
  start : ℤ
  endTime : ℤ
deriving DecidableEq

/-! ## market.rs -/

/-- `enum MarketState`. -/
inductive MarketState
  | Active
  | Resolved
  | Expired
  | Paused
deriving DecidableEq

/-- `struct Market`. -/
structure Market where
  id : String
  state : MarketState
  current_bsi : BSI
  threshold : ℚ
  time_interval : TimeInterval
  trades : List Trade
  positions : List Position
  total_volume : ℚ
  resolution_time : Option ℤ
deriving DecidableEq

/-- `Market::new`. -/
def Market.new (id : String) (initial_bsi : BSI) (threshold : ℚ)
    (time_interval : TimeInterval) : Market :=
  { id := id
    state := MarketState.Active
    current_bsi := initial_bsi
    threshold := threshold
    time_interval := time_interval
    trades := []
    positions := []
    total_volume := 0
    resolution_time := none }

/-- `Market::update_bsi`. -/
def Market.update_bsi (m : Market) (new_bsi : BSI) : Market :=
  { m with current_bsi := new_bsi }

/-- `Market::add_trade`: increments total volume by the trade size, then
appends the trade to the log. -/
def Market.add_trade (m : Market) (trade : Trade) : Market :=
  { m with total_volume := m.total_volume + trade.size
           trades := m.trades ++ [trade] }

/-- `Market::add_position`. -/
def Market.add_position (m : Market) (position : Position) : Market :=
  { m with positions := m.positions ++ [position] }

/-- `Market::should_resolve`. -/
def Market.should_resolve (m : Market) (current_time : ℤ) : Bool :=
  decide ((m.threshold ≤ m.current_bsi.value)
    ∧ (m.time_interval.start ≤ current_time ∧ current_time ≤ m.time_interval.endTime))

/-- `Market::resolve`. -/
def Market.resolve (m : Market) (resolution_time : ℤ) : Market :=
  { m with state := MarketState.Resolved
           resolution_time := some resolution_time }

/-- `struct MarketStatistics`. -/
structure MarketStatistics where
  total_trades : ℕ
  total_volume : ℚ
  active_positions : ℕ
  current_bsi : ℚ
  threshold : ℚ
  time_to_resolution : Option ℤ
deriving DecidableEq

/-- `Market::statistics`. -/
def Market.statistics (m : Market) : MarketStatistics :=
  { total_trades := m.trades.length
    total_volume := m.total_volume
    active_positions := m.positions.length
    current_bsi := m.current_bsi.value
    threshold := m.threshold
    time_to_resolution := m.resolution_time.map (fun rt =>
      numSeconds (rt - m.time_interval.start)) }

/-! ## error.rs -/

/-- `enum SimulatorError` (the `IoError`/`SerializationError` pass-through
variants carry only their message here). -/
inductive SimulatorError
  | InvalidConfig (msg : String)
  | SimulationFailed (msg : String)
  | OracleError (msg : String)
  | InvalidMarketState (msg : String)
  | StrategyError (msg : String)
  | DataError (msg : String)
  | IoError (msg : String)
  | SerializationError (msg : String)
deriving DecidableEq

/-! ## oracle.rs -/

/-- `struct OracleConfig`. -/
structure OracleConfig where
  update_frequency : ℕ
  noise_level : ℚ
  drift_rate : ℚ
  mean_reversion : ℚ
deriving DecidableEq

/-- `struct OracleSimulator`. -/
structure OracleSimulator where
  config : OracleConfig
  current_bsi : BSI
  target_bsi : Option ℚ
deriving DecidableEq

/-- `OracleSimulator::new`. -/
def OracleSimulator.new (config : OracleConfig) (initial_bsi : BSI) : OracleSimulator :=
  { config := config, current_bsi := initial_bsi, target_bsi := none }

/-- `OracleSimulator::set_target`. -/
def OracleSimulator.set_target (o : OracleSimulator) (target : ℚ) : OracleSimulator :=
  { o with target_bsi := some target }

/-- `OracleSimulator::next_bsi`. The two thread-local random draws are
explicit parameters: `driftDraw` models `rng.gen_range(-drift_rate..drift_rate)`
(consumed only on the untargeted path) and `noiseDraw` models a sample of
`Normal(0, noise_level)`. `Normal::new` fails exactly when the standard
deviation is negative (no NaN in the rational model), which is the
`if noise_level < 0` branch. -/
def OracleSimulator.next_bsi (o : OracleSimulator) (driftDraw noiseDraw : ℚ) :
    Except SimulatorError (BSI × OracleSimulator) :=
  let v0 := o.current_bsi.value
  let v1 := match o.target_bsi with
    | some target => v0 + (target - v0) * o.config.drift_rate
    | none => v0 + driftDraw
  if o.config.noise_level < 0 then
    .error (SimulatorError.OracleError "normal distribution construction failed")
  else
    let v2 := v1 + noiseDraw
    let v3 := v2 + (0.5 - v2) * o.config.mean_reversion
    let v4 := clampQ v3 0 1
    match BSI.new v4 with
    | .error e => .error (SimulatorError.OracleError e)
    | .ok b => .ok (b, { o with current_bsi := b })

/-- `OracleSimulator::apply_shock`. -/
def OracleSimulator.apply_shock (o : OracleSimulator) (magnitude : ℚ) :
    Except SimulatorError (BSI × OracleSimulator) :=
  let new_value := clampQ (o.current_bsi.value + magnitude) 0 1
  match BSI.new new_value with
  | .error e => .error (SimulatorError.OracleError e)
  | .ok b => .ok (b, { o with current_bsi := b })

/-- `OracleSimulator::reset`. -/
def OracleSimulator.reset (o : OracleSimulator) (initial_bsi : BSI) : OracleSimulator :=
  { o with current_bsi := initial_bsi, target_bsi := none }

/-- One call in an interleaved `next_bsi`/`apply_shock` sequence, carrying the
random draws of that call. -/
inductive OracleOp
  | advance (driftDraw noiseDraw : ℚ)
  | shock (magnitude : ℚ)

/-- The call an `OracleOp` stands for. -/
def OracleOp.step (op : OracleOp) (o : OracleSimulator) :
    Except SimulatorError (BSI × OracleSimulator) :=
  match op with
  | .advance d n => o.next_bsi d n
  | .shock m => o.apply_shock m

/-- Run a finite sequence of oracle calls, collecting every returned BSI. -/
def OracleSimulator.runOps (o : OracleSimulator) :
    List OracleOp → Except SimulatorError (OracleSimulator × List BSI)
  | [] => .ok (o, [])
  | op :: rest =>
    match op.step o with
    | .error e => .error e
    | .ok (b, o1) =>
      match o1.runOps rest with
      | .error e => .error e
      | .ok (o2, bs) => .ok (o2, b :: bs)

/-! ## strategy.rs -/

/-- `enum Strategy`. -/
inductive Strategy
  | ThresholdCrossing (threshold : ℚ)
  | Momentum (lookback_periods : ℕ)
  | MeanReversion (mean : ℚ) (deviation : ℚ)
  | Contrarian (threshold : ℚ)
  | Custom (name : String)
deriving DecidableEq

/-- `Strategy::evaluate`. Rust slice indexing `history[start_idx]` panics when
out of bounds; a panic is modelled as `none` (the in-bounds result is `some`).
`usize` subtraction `history.len() - lookback_periods` is guarded by the
preceding length test except when `lookback_periods == 0`, where
`history[history.len()]` is always out of bounds. -/
def Strategy.evaluate (s : Strategy) (current_bsi : BSI) (history : List BSI) :
    Option ℚ :=
  match s with
  | .ThresholdCrossing threshold =>
    if current_bsi.value < threshold then some 1 else some (-1)
  | .Momentum lookback_periods =>
    if history.length < lookback_periods then some 0
    else
      let start_idx := history.length - lookback_periods
      match history.get? start_idx with
      | none => none
      | some start_bsi =>
        let momentum := current_bsi.value - start_bsi.value
        some (clampQ momentum (-1) 1)
  | .MeanReversion mean deviation =>
    let distance := current_bsi.value - mean
    if |distance| > deviation then some (-(rustSignum distance)) else some 0
  | .Contrarian threshold =>
    if current_bsi.value > threshold then some (-1) else some 1
  | .Custom _ => some 0

/-! ## participant.rs -/

/-- `enum ParticipantBehavior`. -/
inductive ParticipantBehavior
  | Rational
  | Momentum
  | Contrarian
  | Random
  | Conservative
  | Aggressive
deriving DecidableEq

/-- `ParticipantBehavior::all`. -/
def ParticipantBehavior.all : List ParticipantBehavior :=
  [.Rational, .Momentum, .Contrarian, .Random, .Conservative, .Aggressive]

/-- `struct Participant`. -/
structure Participant where
  id : String
  behavior : ParticipantBehavior
  positions : List Position
  capital : ℚ
  risk_tolerance : ℚ
deriving DecidableEq

/-- `Participant::new`. The `rng.gen_range(0.1..0.9)` risk-tolerance draw is
the explicit `riskDraw` parameter. -/
def Participant.new (id : String) (behavior : ParticipantBehavior) (capital : ℚ)
    (riskDraw : ℚ) : Participant :=
  { id := id, behavior := behavior, positions := [], capital := capital
    risk_tolerance := riskDraw }

/-- `Participant::should_trade`. Each branch ends in a behavior-specific
Bernoulli trial `rng.gen_bool(p)`, modelled by the explicit `coin` parameter;
Rational/Conservative short-circuit on their distance gate first, so the coin
is only consulted when the gate passes. -/
def Participant.should_trade (p : Participant) (current_bsi : BSI) (threshold : ℚ)
    (coin : Bool) : Bool :=
  match p.behavior with
  | .Rational => decide (current_bsi.distance_from threshold > 0.1) && coin
  | .Momentum => coin
  | .Contrarian => coin
  | .Random => coin
  | .Conservative => decide (current_bsi.distance_from threshold > 0.2) && coin
  | .Aggressive => coin

/-- `Participant::determine_position_type` (`coin` models the fair coin of the
Random behavior; unused by the other variants). -/
def Participant.determine_position_type (p : Participant) (current_bsi : BSI)
    (threshold : ℚ) (coin : Bool) : PositionType :=
  match p.behavior with
  | .Rational =>
    if current_bsi.value < threshold then PositionType.Long else PositionType.Short
  | .Momentum =>
    if current_bsi.value > 0.5 then PositionType.Long else PositionType.Short
  | .Contrarian =>
    if current_bsi.value > 0.5 then PositionType.Short else PositionType.Long
  | .Random => if coin then PositionType.Long else PositionType.Short
  | .Conservative =>
    if current_bsi.value < threshold then PositionType.Long else PositionType.Short
  | .Aggressive =>
    if current_bsi.value < threshold then PositionType.Long else PositionType.Short

/-- `Participant::calculate_position_size`. -/
def Participant.calculate_position_size (p : Participant) : ℚ :=
  p.capital * p.risk_tolerance * 0.1

/-! ## scenario.rs -/

/-- `enum Scenario`. -/
inductive Scenario
  | BullishTrend
  | BearishTrend
  | Sideways
  | SentimentReversal
  | ConsensusFormation
  | HighVolatility
  | LowActivity
  | FlashCrash
  | ParabolicRise
  | Custom
deriving DecidableEq

/-! ## config.rs -/

/-- `struct SimulationConfig` (`u64` seed modelled as `ℕ`). -/
structure SimulationConfig where
  duration_days : ℕ
  num_participants : ℕ
  initial_bsi : ℚ
  volatility : ℚ
  threshold : ℚ
  persistence_hours : ℕ
  update_frequency_secs : ℕ
  seed : Option ℕ
deriving DecidableEq

/-! ## simulator.rs -/

/-- `struct SimulationResult`. -/
structure SimulationResult where
  market_id : String
  scenario : Scenario
  final_bsi : ℚ
  total_volume : ℚ
  total_trades : ℕ
  resolution_time : Option ℤ
  duration_days : ℕ
  threshold_reached : Bool
  statistics : MarketStatistics
deriving DecidableEq

/-- The draws a run takes from the ambient `rand::thread_rng()`, made
explicit. The streams are indexed by participant number (`risk`) or by tick
number (the rest; `tradeCoin` additionally by the participant's position in
the per-tick loop). Crucially, none of this is derived from the configured
seed: the Rust code never reads `config.seed`. -/
structure RunEntropy where
  risk : ℕ → ℚ
  drift : ℕ → ℚ
  noise : ℕ → ℚ
  shockCoin : ℕ → Bool
  shockDraw : ℕ → ℚ
  tradeCoin : ℕ → ℕ → Bool
  posCoin : ℕ → ℕ → Bool

/-- Mutable state of one pass of the `Simulator::run` while-loop. `shockLog`
instruments the `oracle.apply_shock` calls the loop makes (time and
magnitude of every applied scenario shock), which the Rust code performs but
does not record. -/
structure RunState where
  market : Market
  oracle : OracleSimulator
  participants : List Participant
  current_time : ℤ
  tick : ℕ
  trade_counter : ℕ
  shockLog : List (ℤ × ℚ)

/-- `Simulator::should_apply_shock` (a match with guards; `coin` models
`rng.gen_bool(0.1)` and `draw` models `rng.gen_range(-0.2..0.2)`, both
consulted only on the `HighVolatility` arm). -/
def Simulator.should_apply_shock (scenario : Scenario) (current_time start_time : ℤ)
    (coin : Bool) (draw : ℚ) : Option ℚ :=
  let elapsed_days := numDays (current_time - start_time)
  match scenario with
  | .FlashCrash => if elapsed_days = 7 then some (-0.3) else none
  | .SentimentReversal => if elapsed_days = 10 then some 0.4 else none
  | .HighVolatility => if coin then some draw else none
  | _ => none

/-- `Simulator::create_participants`: behaviors assigned round-robin
(`behaviors[i % behaviors.len()]`, total here since `i % 6 < 6`). -/
def Simulator.create_participants (config : SimulationConfig) (entropy : RunEntropy) :
    List Participant :=
  (List.range config.num_participants).map (fun i =>
    Participant.new ("participant-" ++ toString i)
      (ParticipantBehavior.all.getD (i % ParticipantBehavior.all.length)
        ParticipantBehavior.Rational)
      1000 (entropy.risk i))

/-- `Simulator::create_trade`: increments the counter first, so the id uses
the incremented value; the position type is computed and discarded. -/
def Simulator.create_trade (config : SimulationConfig) (participant : Participant)
    (current_bsi : BSI) (timestamp : ℤ) (counter : ℕ) (posCoin : Bool) : Trade × ℕ :=
  let counter1 := counter + 1
  let _position_type := participant.determine_position_type current_bsi config.threshold posCoin
  let size := participant.calculate_position_size
  ({ id := "trade-" ++ toString counter1
     participant_id := participant.id
     trade_type := TradeType.Open
     size := size
     price := current_bsi.value
     timestamp := timestamp
     bsi_at_trade := current_bsi }, counter1)

/-- The per-participant trading pass of one tick of `Simulator::run`. -/
def Simulator.tradePass (config : SimulationConfig) (entropy : RunEntropy) (tick : ℕ)
    (new_bsi : BSI) (current_time : ℤ) (participants : List Participant)
    (market : Market) (counter : ℕ) : Market × ℕ :=
  participants.enum.foldl (fun (acc : Market × ℕ) ji =>
    let j := ji.1
    let participant := ji.2
    if participant.should_trade new_bsi config.threshold (entropy.tradeCoin tick j) then
      let tc := Simulator.create_trade config participant new_bsi current_time acc.2
        (entropy.posCoin tick j)
      (acc.1.add_trade tc.1, tc.2)
    else acc) (market, counter)

/-- Tail of one loop iteration: check resolution — which in Rust `break`s
before the time advance, so here it leaves `current_time` unchanged and the
`Resolved` state stops the loop — or advance simulated time by the fixed
update interval. -/
def Simulator.finishTick (config : SimulationConfig) (st : RunState)
    (mc : Market × ℕ) (oracle2 : OracleSimulator) (shockLog1 : List (ℤ × ℚ)) :
    RunState :=
  if mc.1.should_resolve st.current_time then
    { st with market := mc.1.resolve st.current_time, oracle := oracle2
              trade_counter := mc.2, shockLog := shockLog1 }
  else
    { st with market := mc.1, oracle := oracle2, trade_counter := mc.2
              shockLog := shockLog1
              current_time := st.current_time +
                (config.update_frequency_secs : ℤ) * 1000000000
              tick := st.tick + 1 }

/-- One iteration of the `Simulator::run` while-loop: advance the oracle and
push the BSI into the market, conditionally apply a scenario shock, poll every
participant, then resolve or advance time (`finishTick`). -/
def Simulator.simTick (config : SimulationConfig) (scenario : Scenario)
    (entropy : RunEntropy) (start_time : ℤ) (st : RunState) :
    Except SimulatorError RunState :=
  match st.oracle.next_bsi (entropy.drift st.tick) (entropy.noise st.tick) with
  | .error e => .error e
  | .ok (new_bsi, oracle1) =>
    let market1 := st.market.update_bsi new_bsi
    let afterShock : Except SimulatorError (OracleSimulator × List (ℤ × ℚ)) :=
      match Simulator.should_apply_shock scenario st.current_time start_time
          (entropy.shockCoin st.tick) (entropy.shockDraw st.tick) with
      | some shock =>
        match oracle1.apply_shock shock with
        | .error e => .error e
        | .ok (_, oracle2) => .ok (oracle2, st.shockLog ++ [(st.current_time, shock)])
      | none => .ok (oracle1, st.shockLog)
    match afterShock with
    | .error e => .error e
    | .ok (oracle2, shockLog1) =>
      let mc := Simulator.tradePass config entropy st.tick new_bsi st.current_time
        st.participants market1 st.trade_counter
      .ok (Simulator.finishTick config st mc oracle2 shockLog1)

/-- The `while current_time < end_time && market.state == Active` loop,
fuel-indexed. When `update_frequency_secs > 0` the supplied fuel strictly
exceeds the number of iterations the Rust loop performs, so the fuel never
runs out and the two agree (with `update_frequency_secs == 0` the Rust loop
would never terminate). -/
def Simulator.simLoop (config : SimulationConfig) (scenario : Scenario)
    (entropy : RunEntropy) (start_time end_time : ℤ) :
    ℕ → RunState → Except SimulatorError RunState
  | 0, st => .ok st
  | fuel + 1, st =>
    if st.current_time < end_time ∧ st.market.state = MarketState.Active then
      match Simulator.simTick config scenario entropy start_time st with
      | .error e => .error e
      | .ok st1 => Simulator.simLoop config scenario entropy start_time end_time fuel st1
    else .ok st

/-- `Simulator::run` up to the final state of its loop. `start_time` is the
ambient `Utc::now()` and `entropy` the ambient thread-local generator, both
explicit parameters; the configured `seed` is never consulted, exactly as in
the source. -/
def Simulator.runWithLog (config : SimulationConfig) (scenario : Scenario)
    (start_time : ℤ) (entropy : RunEntropy) : Except SimulatorError RunState :=
  let end_time := start_time + (config.duration_days : ℤ) * 86400000000000
  match BSI.new config.initial_bsi with
  | .error e => .error (SimulatorError.InvalidConfig e)
  | .ok initial_bsi =>
    let market := Market.new ("sim-" ++ toString (numSeconds start_time)) initial_bsi
      config.threshold ⟨start_time, end_time⟩
    let oracle_config : OracleConfig :=
      { update_frequency := config.update_frequency_secs
        noise_level := config.volatility * 0.5
        drift_rate := config.volatility * 0.1
        mean_reversion := 0.1 }
    let oracle0 := OracleSimulator.new oracle_config initial_bsi
    let oracle := match scenario with
      | .BullishTrend => oracle0.set_target 0.8
      | .BearishTrend => oracle0.set_target 0.2
      | .SentimentReversal => oracle0.set_target 0.9
      | .ConsensusFormation => oracle0.set_target config.threshold
      | .ParabolicRise => oracle0.set_target 0.95
      | _ => oracle0
    let participants := Simulator.create_participants config entropy
    let fuel := config.duration_days * 86400 / config.update_frequency_secs + 2
    Simulator.simLoop config scenario entropy start_time end_time fuel
      { market := market, oracle := oracle, participants := participants
        current_time := start_time, tick := 0, trade_counter := 0, shockLog := [] }

/-- `Simulator::run`: the emitted `SimulationResult`. -/
def Simulator.run (config : SimulationConfig) (scenario : Scenario)
    (start_time : ℤ) (entropy : RunEntropy) : Except SimulatorError SimulationResult :=
  match Simulator.runWithLog config scenario start_time entropy with
  | .error e => .error e
  | .ok st =>
    .ok { market_id := st.market.id
          scenario := scenario
          final_bsi := st.market.current_bsi.value
          total_volume := st.market.total_volume
          total_trades := st.market.trades.length
          resolution_time := st.market.resolution_time
          duration_days := (numDays (st.current_time - st.market.time_interval.start)).toNat
          threshold_reached := decide (st.market.state = MarketState.Resolved)
          statistics := st.market.statistics }

/-! ## analytics.rs -/

/-- `struct PerformanceMetrics`. -/
structure PerformanceMetrics where
  total_simulations : ℕ
  successful_resolutions : ℕ
  resolution_rate : ℚ
  avg_final_bsi : ℚ
  avg_volume : ℚ
  avg_trades : ℚ
  avg_duration_days : ℚ
  bsi_volatility : ℚ
deriving DecidableEq

/-- `PerformanceMetrics::default`. -/
def PerformanceMetrics.default : PerformanceMetrics :=
  { total_simulations := 0
    successful_resolutions := 0
    resolution_rate := 0
    avg_final_bsi := 0
    avg_volume := 0
    avg_trades := 0
    avg_duration_days := 0
    bsi_volatility := 0 }

/-- `Analytics::analyze`. The single irrational operation, `f64::sqrt` on the
final-BSI variance, is modelled by an uninterpreted parameter `sqrtFn`
(no claim constrains the volatility field beyond the empty-input case, which
returns the default record before any square root is taken). -/
def Analytics.analyze (sqrtFn : ℚ → ℚ) (results : List SimulationResult) :
    PerformanceMetrics :=
  if results.isEmpty then PerformanceMetrics.default
  else
    let total_runs := results.length
    let successful_resolutions :=
      (results.filter (fun r => r.threshold_reached)).length
    let avg_final_bsi := (results.map (fun r => r.final_bsi)).sum / (total_runs : ℚ)
    let avg_volume := (results.map (fun r => r.total_volume)).sum / (total_runs : ℚ)
    let avg_trades := ((results.map (fun r => r.total_trades)).sum : ℚ) / (total_runs : ℚ)
    let avg_duration := (results.map (fun r => (r.duration_days : ℚ))).sum / (total_runs : ℚ)
    let bsi_variance :=
      (results.map (fun r => (r.final_bsi - avg_final_bsi) ^ 2)).sum / (total_runs : ℚ)
    let bsi_volatility := sqrtFn bsi_variance
    { total_simulations := total_runs
      successful_resolutions := successful_resolutions
      resolution_rate := (successful_resolutions : ℚ) / (total_runs : ℚ)
      avg_final_bsi := avg_final_bsi
      avg_volume := avg_volume
      avg_trades := avg_trades
      avg_duration_days := avg_duration
      bsi_volatility := bsi_volatility }

/-! ## Helper lemmas -/

theorem clampQ_le_right (x lo hi : ℚ) (h : lo ≤ hi) : clampQ x lo hi ≤ hi := by
  unfold clampQ
  split_ifs with h1 h2
  · exact h
  · exact le_refl hi
  · exact not_lt.mp h2

theorem le_clampQ_left (x lo hi : ℚ) (h : lo ≤ hi) : lo ≤ clampQ x lo hi := by
  unfold clampQ
  split_ifs with h1 h2
  · exact le_refl lo
  · exact h
  · exact not_lt.mp h1

theorem BSI.new_ok (v : ℚ) (h0 : 0 ≤ v) (h1 : v ≤ 1) : BSI.new v = .ok ⟨v⟩ := by
  simp [BSI.new, h0, h1]

/-- The value `next_bsi` stores and returns, read off the source: base value,
plus drift (target-seeking or the random-walk draw), plus noise, plus the
unconditional reversion toward the fixed mean `0.5`, clamped to `[0, 1]`. -/
def OracleSimulator.nextValue (o : OracleSimulator) (driftDraw noiseDraw : ℚ) : ℚ :=
  let v1 := match o.target_bsi with
    | some target => o.current_bsi.value + (target - o.current_bsi.value) * o.config.drift_rate
    | none => o.current_bsi.value + driftDraw
  let v2 := v1 + noiseDraw
  let v3 := v2 + (0.5 - v2) * o.config.mean_reversion
  clampQ v3 0 1

theorem OracleSimulator.next_bsi_eq (o : OracleSimulator) (d n : ℚ)
    (h : 0 ≤ o.config.noise_level) :
    o.next_bsi d n
      = .ok (⟨o.nextValue d n⟩, { o with current_bsi := ⟨o.nextValue d n⟩ }) := by
  simp only [OracleSimulator.next_bsi, OracleSimulator.nextValue]
  rw [if_neg (not_lt.mpr h),
    BSI.new_ok _ (le_clampQ_left _ 0 1 (by norm_num)) (clampQ_le_right _ 0 1 (by norm_num))]

theorem OracleSimulator.apply_shock_eq (o : OracleSimulator) (m : ℚ) :
    o.apply_shock m
      = .ok (⟨clampQ (o.current_bsi.value + m) 0 1⟩,
             { o with current_bsi := ⟨clampQ (o.current_bsi.value + m) 0 1⟩ }) := by
  have hnew := BSI.new_ok (clampQ (o.current_bsi.value + m) 0 1)
    (le_clampQ_left _ 0 1 (by norm_num)) (clampQ_le_right _ 0 1 (by norm_num))
  show (match BSI.new (clampQ (o.current_bsi.value + m) 0 1) with
    | Except.error e => Except.error (SimulatorError.OracleError e)
    | Except.ok b => Except.ok (b, { o with current_bsi := b })) = _
  rw [hnew]

/-! ## C9 -/

/-- C9: `BSI::new(v)` succeeds exactly when `0 ≤ v ≤ 1` — in particular it
succeeds for `0.0`, `0.5` and `1.0` and fails for `-0.1` and `1.1` — and every
successfully constructed BSI has `0 ≤ value ≤ 1`. -/
theorem C9_bsi_new_spec :
    (∀ v : ℚ, (∃ b, BSI.new v = .ok b) ↔ (0 ≤ v ∧ v ≤ 1))
    ∧ (∀ (v : ℚ) (b : BSI), BSI.new v = .ok b → 0 ≤ b.value ∧ b.value ≤ 1)
    ∧ (∃ b, BSI.new 0 = .ok b) ∧ (∃ b, BSI.new 0.5 = .ok b) ∧ (∃ b, BSI.new 1 = .ok b)
    ∧ (¬ ∃ b, BSI.new (-0.1) = .ok b) ∧ (¬ ∃ b, BSI.new 1.1 = .ok b) := by
  have hiff : ∀ v : ℚ, (∃ b, BSI.new v = .ok b) ↔ (0 ≤ v ∧ v ≤ 1) := by
    intro v
    constructor
    · rintro ⟨b, hb⟩
      by_contra hv
      simp [BSI.new, hv] at hb
    · rintro ⟨h0, h1⟩
      exact ⟨⟨v⟩, BSI.new_ok v h0 h1⟩
  refine ⟨hiff, ?_, ?_, ?_, ?_, ?_, ?_⟩
  · intro v b hb
    have hv : 0 ≤ v ∧ v ≤ 1 := (hiff v).mp ⟨b, hb⟩
    rw [BSI.new_ok v hv.1 hv.2] at hb
    obtain rfl : (⟨v⟩ : BSI) = b := Except.ok.inj hb
    exact hv
  · exact (hiff 0).mpr (by norm_num)
  · exact (hiff 0.5).mpr (by norm_num)
  · exact (hiff 1).mpr (by norm_num)
  · rw [hiff]; norm_num
  · rw [hiff]; norm_num

/-- Witness for C9 at the concrete input `0.5`. -/
theorem C9_bsi_new_spec_witness :
    BSI.new 0.5 = .ok ⟨0.5⟩ ∧ 0 ≤ (⟨0.5⟩ : BSI).value ∧ (⟨0.5⟩ : BSI).value ≤ 1 :=
  ⟨BSI.new_ok 0.5 (by norm_num) (by norm_num),
   C9_bsi_new_spec.2.1 0.5 ⟨0.5⟩ (BSI.new_ok 0.5 (by norm_num) (by norm_num))⟩

/-! ## C2 -/

/-- C2: `Market::should_resolve(now)` is true iff
`current_bsi.value() ≥ threshold` and `interval.start ≤ now ≤ interval.end`,
all three comparisons inclusive. -/
theorem C2_should_resolve_iff (m : Market) (now : ℤ) :
    m.should_resolve now = true ↔
      (m.threshold ≤ m.current_bsi.value
        ∧ m.time_interval.start ≤ now ∧ now ≤ m.time_interval.endTime) := by
  simp [Market.should_resolve]

/-! ## C7 -/

/-- C7: after `resolve(t)`, `statistics().time_to_resolution` is
`some (t − interval.start)` in whole seconds; for a market never resolved
(`resolution_time = none`) it is `none`. -/
theorem C7_time_to_resolution (m : Market) (t : ℤ) :
    ((m.resolve t).statistics).time_to_resolution
        = some (numSeconds (t - m.time_interval.start))
    ∧ (m.resolution_time = none → m.statistics.time_to_resolution = none) := by
  constructor
  · simp [Market.resolve, Market.statistics]
  · intro h
    simp [Market.statistics, h]

/-- Witness for C7: a freshly constructed (never resolved) market, resolved at
3 seconds after the interval start. -/
theorem C7_time_to_resolution_witness :
    (((Market.new "m" ⟨0.5⟩ 0.75 ⟨0, 86400000000000⟩).resolve 3000000000).statistics).time_to_resolution = some 3
    ∧ (Market.new "m" ⟨0.5⟩ 0.75 ⟨0, 86400000000000⟩).statistics.time_to_resolution = none :=
  ⟨((C7_time_to_resolution (Market.new "m" ⟨0.5⟩ 0.75 ⟨0, 86400000000000⟩) 3000000000).1).trans (by decide),
   (C7_time_to_resolution (Market.new "m" ⟨0.5⟩ 0.75 ⟨0, 86400000000000⟩) 3000000000).2 rfl⟩

/-! ## C3 -/

theorem OracleSimulator.nextValue_mem (o : OracleSimulator) (d n : ℚ) :
    0 ≤ o.nextValue d n ∧ o.nextValue d n ≤ 1 := by
  unfold OracleSimulator.nextValue
  exact ⟨le_clampQ_left _ 0 1 (by norm_num), clampQ_le_right _ 0 1 (by norm_num)⟩

/-- The drift term as the spec words it: `(target − current) * drift_rate`
when a target is set, the uniform draw otherwise. -/
def specDrift (o : OracleSimulator) (driftDraw : ℚ) : ℚ :=
  match o.target_bsi with
  | some target => (target - o.current_bsi.value) * o.config.drift_rate
  | none => driftDraw

/-- The advanced value as the spec words it: `current + drift + noise`
plus the reversion `(0.5 − (current + drift + noise)) * mean_reversion`
toward the fixed global mean, clamped to `[0, 1]`. -/
def specNext (o : OracleSimulator) (driftDraw noiseDraw : ℚ) : ℚ :=
  let s := o.current_bsi.value + specDrift o driftDraw + noiseDraw
  clampQ (s + (0.5 - s) * o.config.mean_reversion) 0 1

/-- C3: `next_bsi` computes exactly the spec's formula — drift
(target-seeking or the raw draw), plus the noise draw, plus reversion toward
the fixed mean `0.5` computed from the already-drifted-and-noised value and
applied unconditionally (independently of any active target), the total
clamped to `[0, 1]` — and stores the result as the new current BSI. -/
theorem C3_next_bsi_formula (o : OracleSimulator) (d n : ℚ)
    (h : 0 ≤ o.config.noise_level) :
    o.next_bsi d n
      = .ok (⟨specNext o d n⟩, { o with current_bsi := ⟨specNext o d n⟩ }) := by
  rw [o.next_bsi_eq d n h]
  have hval : o.nextValue d n = specNext o d n := by
    unfold OracleSimulator.nextValue specNext specDrift
    cases o.target_bsi <;> ring_nf
  rw [hval]

def oracleW : OracleSimulator :=
  { config := { update_frequency := 300, noise_level := 0.05
                drift_rate := 0.01, mean_reversion := 0.1 }
    current_bsi := ⟨0.5⟩
    target_bsi := none }

/-- Witness for C3 at a concrete untargeted oracle with draws `0` and `0.1`:
the stored value is `0.59`. -/
theorem C3_next_bsi_formula_witness :
    oracleW.next_bsi 0 0.1
      = .ok (⟨specNext oracleW 0 0.1⟩, { oracleW with current_bsi := ⟨specNext oracleW 0 0.1⟩ })
    ∧ specNext oracleW 0 0.1 = 0.59 :=
  ⟨C3_next_bsi_formula oracleW 0 0.1 (by norm_num [oracleW]), by with_unfolding_all rfl⟩

/-! ## C6 -/

theorem OracleOp.step_ok (op : OracleOp) (o : OracleSimulator)
    (hn : 0 ≤ o.config.noise_level) :
    ∃ b : BSI, op.step o = .ok (b, { o with current_bsi := b })
      ∧ 0 ≤ b.value ∧ b.value ≤ 1 := by
  cases op with
  | advance d n =>
    exact ⟨⟨o.nextValue d n⟩, o.next_bsi_eq d n hn,
      (o.nextValue_mem d n).1, (o.nextValue_mem d n).2⟩
  | shock m =>
    exact ⟨⟨clampQ (o.current_bsi.value + m) 0 1⟩, o.apply_shock_eq m,
      le_clampQ_left _ 0 1 (by norm_num), clampQ_le_right _ 0 1 (by norm_num)⟩

/-- C6: for every oracle with non-negative noise level whose current BSI is in
range (as any factory-built BSI is), every finite interleaving of
`next_bsi`/`apply_shock` calls with arbitrary draws and shock magnitudes
succeeds, every returned BSI lies in `[0, 1]`, and so does the stored
`current_bsi` at the end. -/
theorem C6_oracle_range (o : OracleSimulator) (ops : List OracleOp)
    (hn : 0 ≤ o.config.noise_level)
    (h0 : 0 ≤ o.current_bsi.value) (h1 : o.current_bsi.value ≤ 1) :
    ∃ o2 outs, o.runOps ops = .ok (o2, outs)
      ∧ (∀ b ∈ outs, 0 ≤ b.value ∧ b.value ≤ 1)
      ∧ 0 ≤ o2.current_bsi.value ∧ o2.current_bsi.value ≤ 1 := by
  induction ops generalizing o with
  | nil => exact ⟨o, [], rfl, by simp, h0, h1⟩
  | cons op rest ih =>
    obtain ⟨b, hstep, hb0, hb1⟩ := op.step_ok o hn
    obtain ⟨o2, outs, hrun, houts, h20, h21⟩ := ih { o with current_bsi := b } hn hb0 hb1
    refine ⟨o2, b :: outs, ?_, ?_, h20, h21⟩
    · simp only [OracleSimulator.runOps, hstep, hrun]
    · intro x hx
      rcases List.mem_cons.mp hx with hxb | hxout
      · rw [hxb]; exact ⟨hb0, hb1⟩
      · exact houts x hxout

/-- Witness for C6: a default-configured oracle runs
advance-shock-advance-shock with large shocks, all outputs in range. -/
theorem C6_oracle_range_witness :
    ∃ o2 outs,
      oracleW.runOps
          [OracleOp.advance 0 0.1, OracleOp.shock (-5), OracleOp.advance 0.005 0,
           OracleOp.shock 7] = .ok (o2, outs)
      ∧ (∀ b ∈ outs, 0 ≤ b.value ∧ b.value ≤ 1)
      ∧ 0 ≤ o2.current_bsi.value ∧ o2.current_bsi.value ≤ 1 :=
  C6_oracle_range oracleW _ (by norm_num [oracleW]) (by norm_num [oracleW])
    (by norm_num [oracleW])

/-! ## C8 -/

/-- C8: `Analytics::analyze` is total; on the empty list it returns the
default record, whose every field is zero; on a one-element list whose element
reached the threshold it reports resolution rate `1.0` with one successful
resolution out of one simulation. (Quantified over the uninterpreted
square-root model, which none of these cases consults.) -/
theorem C8_analyze_spec (sqrtFn : ℚ → ℚ) :
    Analytics.analyze sqrtFn [] = PerformanceMetrics.default
    ∧ PerformanceMetrics.default =
        { total_simulations := 0, successful_resolutions := 0, resolution_rate := 0
          avg_final_bsi := 0, avg_volume := 0, avg_trades := 0
          avg_duration_days := 0, bsi_volatility := 0 }
    ∧ ∀ r : SimulationResult, r.threshold_reached = true →
        (Analytics.analyze sqrtFn [r]).resolution_rate = 1
        ∧ (Analytics.analyze sqrtFn [r]).successful_resolutions = 1
        ∧ (Analytics.analyze sqrtFn [r]).total_simulations = 1 := by
  refine ⟨rfl, rfl, ?_⟩
  intro r hr
  simp [Analytics.analyze, List.filter, hr]

/-- A concrete simulation-result record that reached its threshold. -/
def resultW : SimulationResult :=
  { market_id := "sim-0", scenario := Scenario.BullishTrend, final_bsi := 0.8
    total_volume := 100, total_trades := 3, resolution_time := some 1000000000
    duration_days := 2, threshold_reached := true
    statistics :=
      { total_trades := 3, total_volume := 100, active_positions := 0
        current_bsi := 0.8, threshold := 0.75, time_to_resolution := some 1 } }

/-- Witness for C8 at the identity square-root model and `resultW`. -/
theorem C8_analyze_spec_witness :
    (Analytics.analyze (fun q => q) [resultW]).resolution_rate = 1
    ∧ (Analytics.analyze (fun q => q) [resultW]).successful_resolutions = 1
    ∧ (Analytics.analyze (fun q => q) [resultW]).total_simulations = 1 :=
  (C8_analyze_spec (fun q => q)).2.2 resultW rfl

/-! ## C10 -/

/-- A mutation of the `Market` API, as invoked by callers. -/
inductive MarketOp
  | updateBsi (b : BSI)
  | addTrade (t : Trade)
  | addPosition (p : Position)
  | resolveAt (t : ℤ)

/-- Dispatch one `MarketOp` to the corresponding `Market` method. -/
def Market.applyOp (m : Market) : MarketOp → Market
  | .updateBsi b => m.update_bsi b
  | .addTrade t => m.add_trade t
  | .addPosition p => m.add_position p
  | .resolveAt t => m.resolve t

/-- Apply a finite call sequence in order. -/
def Market.applyOps (m : Market) (ops : List MarketOp) : Market :=
  ops.foldl Market.applyOp m

theorem Market.applyOps_volume (m : Market) (ops : List MarketOp)
    (h : m.total_volume = (m.trades.map Trade.size).sum) :
    (m.applyOps ops).total_volume = ((m.applyOps ops).trades.map Trade.size).sum := by
  induction ops generalizing m with
  | nil => exact h
  | cons op rest ih =>
    show ((m.applyOp op).applyOps rest).total_volume = _
    apply ih
    cases op with
    | updateBsi b => simpa [Market.applyOp, Market.update_bsi] using h
    | addTrade t =>
      simp [Market.applyOp, Market.add_trade, h]
    | addPosition p => simpa [Market.applyOp, Market.add_position] using h
    | resolveAt t => simpa [Market.applyOp, Market.resolve] using h

/-- C10: starting from `Market::new` (empty log, zero volume), after any
finite sequence of `update_bsi` / `add_trade` / `add_position` / `resolve`
calls the running `total_volume` equals the sum of the sizes of the trades in
the log; moreover `add_trade` appends exactly its trade and adds exactly its
size, and no other operation touches the log or the volume. -/
theorem C10_volume_invariant (id : String) (b : BSI) (threshold : ℚ)
    (interval : TimeInterval) (ops : List MarketOp) :
    ((Market.new id b threshold interval).applyOps ops).total_volume
      = (((Market.new id b threshold interval).applyOps ops).trades.map Trade.size).sum
    ∧ (∀ (m : Market) (t : Trade),
        (m.applyOp (MarketOp.addTrade t)).trades = m.trades ++ [t]
        ∧ (m.applyOp (MarketOp.addTrade t)).total_volume = m.total_volume + t.size)
    ∧ (∀ (m : Market) (op : MarketOp), (∀ t : Trade, op ≠ MarketOp.addTrade t) →
        (m.applyOp op).trades = m.trades
        ∧ (m.applyOp op).total_volume = m.total_volume) := by
  refine ⟨?_, ?_, ?_⟩
  · exact Market.applyOps_volume _ ops (by simp [Market.new])
  · intro m t
    exact ⟨rfl, rfl⟩
  · intro m op hop
    cases op with
    | updateBsi b2 => exact ⟨rfl, rfl⟩
    | addTrade t => exact absurd rfl (hop t)
    | addPosition p => exact ⟨rfl, rfl⟩
    | resolveAt t2 => exact ⟨rfl, rfl⟩

/-- A concrete trade of size 7. -/
def tradeW : Trade :=
  { id := "trade-1", participant_id := "participant-0", trade_type := TradeType.Open
    size := 7, price := 0.5, timestamp := 0, bsi_at_trade := ⟨0.5⟩ }

/-- Witness for C10: one update, one trade of size 7, one resolve. -/
theorem C10_volume_invariant_witness :
    ((Market.new "m" ⟨0.5⟩ 0.75 ⟨0, 10⟩).applyOps
        [MarketOp.updateBsi ⟨0.8⟩, MarketOp.addTrade tradeW, MarketOp.resolveAt 5]).total_volume
      = (((Market.new "m" ⟨0.5⟩ 0.75 ⟨0, 10⟩).applyOps
        [MarketOp.updateBsi ⟨0.8⟩, MarketOp.addTrade tradeW, MarketOp.resolveAt 5]).trades.map Trade.size).sum
    ∧ ((Market.new "m" ⟨0.5⟩ 0.75 ⟨0, 10⟩).applyOp (MarketOp.updateBsi ⟨0.8⟩)).trades
        = (Market.new "m" ⟨0.5⟩ 0.75 ⟨0, 10⟩).trades :=
  ⟨(C10_volume_invariant "m" ⟨0.5⟩ 0.75 ⟨0, 10⟩
      [MarketOp.updateBsi ⟨0.8⟩, MarketOp.addTrade tradeW, MarketOp.resolveAt 5]).1,
   ((C10_volume_invariant "m" ⟨0.5⟩ 0.75 ⟨0, 10⟩ []).2.2 (Market.new "m" ⟨0.5⟩ 0.75 ⟨0, 10⟩)
      (MarketOp.updateBsi ⟨0.8⟩) (fun t h => by cases h)).1⟩

/-! ## C5 -/

/-- C5 as stated is false: `Momentum` with `lookback_periods = 0` always
indexes `history[history.len()]`, out of bounds — the Rust code panics (here:
`none`) even on the empty history. -/
theorem C5_counterexample :
    Strategy.evaluate (Strategy.Momentum 0) ⟨0.5⟩ [] = none := by
  with_unfolding_all rfl

/-- C5 amended: for every strategy except `Momentum` with
`lookback_periods = 0`, `evaluate` is total and its signal lies in `[−1, 1]`;
`Momentum` returns the neutral `0.0` whenever the history is shorter than the
lookback window. -/
theorem C5_evaluate_total_amended (s : Strategy) (current_bsi : BSI)
    (history : List BSI)
    (h : ∀ lb : ℕ, s = Strategy.Momentum lb → 1 ≤ lb) :
    (∃ q, s.evaluate current_bsi history = some q ∧ -1 ≤ q ∧ q ≤ 1)
    ∧ ∀ lb : ℕ, s = Strategy.Momentum lb → history.length < lb →
        s.evaluate current_bsi history = some 0 := by
  constructor
  · cases s with
    | ThresholdCrossing t =>
      by_cases hc : current_bsi.value < t
      · exact ⟨1, by simp [Strategy.evaluate, hc], by norm_num, by norm_num⟩
      · exact ⟨-1, by simp [Strategy.evaluate, hc], by norm_num, by norm_num⟩
    | Momentum lb =>
      have hlb : 1 ≤ lb := h lb rfl
      by_cases hlen : history.length < lb
      · exact ⟨0, by simp [Strategy.evaluate, hlen], by norm_num, by norm_num⟩
      · have hidx : history.length - lb < history.length := by omega
        refine ⟨clampQ (current_bsi.value - (history.get ⟨history.length - lb, hidx⟩).value) (-1) 1,
          ?_, le_clampQ_left _ (-1) 1 (by norm_num), clampQ_le_right _ (-1) 1 (by norm_num)⟩
        simp [Strategy.evaluate, hlen, List.getElem?_eq_getElem hidx]
    | MeanReversion mean deviation =>
      by_cases hc : |current_bsi.value - mean| > deviation
      · refine ⟨-(rustSignum (current_bsi.value - mean)),
          by simp [Strategy.evaluate, hc], ?_, ?_⟩
        · unfold rustSignum; split_ifs <;> norm_num
        · unfold rustSignum; split_ifs <;> norm_num
      · exact ⟨0, by simp [Strategy.evaluate, hc], by norm_num, by norm_num⟩
    | Contrarian t =>
      by_cases hc : current_bsi.value > t
      · exact ⟨-1, by simp [Strategy.evaluate, hc], by norm_num, by norm_num⟩
      · exact ⟨1, by simp [Strategy.evaluate, hc], by norm_num, by norm_num⟩
    | Custom name =>
      exact ⟨0, rfl, by norm_num, by norm_num⟩
  · intro lb hs hlen
    subst hs
    simp [Strategy.evaluate, hlen]

/-- Witness for amended C5: `Momentum` with lookback 1 over a one-point
history, and the neutral case over the empty history. -/
theorem C5_evaluate_total_amended_witness :
    (∃ q, Strategy.evaluate (Strategy.Momentum 1) ⟨0.9⟩ [⟨0.2⟩] = some q ∧ -1 ≤ q ∧ q ≤ 1)
    ∧ Strategy.evaluate (Strategy.Momentum 1) ⟨0.9⟩ [] = some 0 :=
  ⟨(C5_evaluate_total_amended (Strategy.Momentum 1) ⟨0.9⟩ [⟨0.2⟩]
      (fun lb hlb => by injection hlb with h2; omega)).1,
   (C5_evaluate_total_amended (Strategy.Momentum 1) ⟨0.9⟩ []
      (fun lb hlb => by injection hlb with h2; omega)).2 1 rfl (by norm_num)⟩

/-! ## C4 -/

theorem Simulator.finishTick_shockLog (config : SimulationConfig) (st : RunState)
    (mc : Market × ℕ) (oracle2 : OracleSimulator) (shockLog1 : List (ℤ × ℚ)) :
    (Simulator.finishTick config st mc oracle2 shockLog1).shockLog = shockLog1 := by
  unfold Simulator.finishTick
  split <;> rfl

theorem Simulator.should_apply_shock_eq (scenario : Scenario) (ct st : ℤ)
    (coin : Bool) (draw : ℚ) :
    Simulator.should_apply_shock scenario ct st coin draw =
      (if scenario = Scenario.FlashCrash ∧ numDays (ct - st) = 7 then some (-0.3)
       else if scenario = Scenario.SentimentReversal ∧ numDays (ct - st) = 10 then some 0.4
       else if scenario = Scenario.HighVolatility ∧ coin = true then some draw
       else none) := by
  cases scenario <;> simp [Simulator.should_apply_shock]

/-- C4 amended: in each executed tick of a run, a scenario shock is applied
(recorded in the shock log with the tick's time) iff the scenario is
FlashCrash and the elapsed time truncated to whole days equals 7 — i.e. at
*every* tick of the eighth day, typically many per run, magnitude exactly
−0.3 each time — or SentimentReversal with truncated elapsed days equal to
10 (magnitude +0.4, likewise every tick of that day), or HighVolatility with
that tick's 10% Bernoulli draw true (magnitude the tick's uniform draw);
for all other scenarios no shock is ever applied. -/
theorem C4_shock_application_amended (config : SimulationConfig)
    (scenario : Scenario) (entropy : RunEntropy) (start_time : ℤ) (st : RunState)
    (h : 0 ≤ st.oracle.config.noise_level) :
    ∃ st2, Simulator.simTick config scenario entropy start_time st = .ok st2
      ∧ st2.shockLog = st.shockLog ++
          (if scenario = Scenario.FlashCrash
              ∧ numDays (st.current_time - start_time) = 7 then
            [(st.current_time, -0.3)]
          else if scenario = Scenario.SentimentReversal
              ∧ numDays (st.current_time - start_time) = 10 then
            [(st.current_time, 0.4)]
          else if scenario = Scenario.HighVolatility
              ∧ entropy.shockCoin st.tick = true then
            [(st.current_time, entropy.shockDraw st.tick)]
          else []) := by
  have hnb := st.oracle.next_bsi_eq (entropy.drift st.tick) (entropy.noise st.tick) h
  simp only [Simulator.simTick, hnb, Simulator.should_apply_shock_eq]
  split_ifs with h1 h2 h3
  · simp only [OracleSimulator.apply_shock_eq]
    exact ⟨_, rfl, by simp [Simulator.finishTick_shockLog]⟩
  · simp only [OracleSimulator.apply_shock_eq]
    exact ⟨_, rfl, by simp [Simulator.finishTick_shockLog]⟩
  · simp only [OracleSimulator.apply_shock_eq]
    exact ⟨_, rfl, by simp [Simulator.finishTick_shockLog]⟩
  · exact ⟨_, rfl, by simp [Simulator.finishTick_shockLog]⟩

/-- Deterministic entropy: every thread-local draw comes out zero/false
(risk tolerance `0.5`, inside its `(0.1, 0.9)` support). -/
def entropyZero : RunEntropy :=
  { risk := fun _ => 0.5, drift := fun _ => 0, noise := fun _ => 0
    shockCoin := fun _ => false, shockDraw := fun _ => 0
    tradeCoin := fun _ _ => false, posCoin := fun _ _ => false }

/-- Same as `entropyZero` except the very first Gaussian noise draw is `0.1`. -/
def entropyNoise : RunEntropy :=
  { entropyZero with noise := fun t => if t = 0 then 0.1 else 0 }

/-- A nine-day FlashCrash run with two ticks per day, no participants, and an
unreachable threshold. -/
def cfgHalfDay : SimulationConfig :=
  { duration_days := 9, num_participants := 0, initial_bsi := 0.5
    volatility := 0.2, threshold := 1, persistence_hours := 24
    update_frequency_secs := 43200, seed := none }

/-- The shock log of a finished run (empty on error). -/
def shockLogOf (e : Except SimulatorError RunState) : List (ℤ × ℚ) :=
  match e with
  | .ok st => st.shockLog
  | .error _ => []

/-- C4 as stated is false: in the nine-day FlashCrash run with two ticks per
day, the −0.3 shock is applied twice — once at elapsed time exactly 7 days
(604800 s) and again at elapsed 7.5 days, because the guard truncates elapsed
time to whole days — not exactly once at exactly day 7. -/
theorem C4_counterexample :
    shockLogOf (Simulator.runWithLog cfgHalfDay Scenario.FlashCrash 0 entropyZero)
      = [(604800000000000, -0.3), (648000000000000, -0.3)] := by
  with_unfolding_all decide

/-- Witness for amended C4: a concrete FlashCrash tick sitting at elapsed
7.5 days gets the −0.3 shock appended to its log. -/
theorem C4_shock_application_amended_witness :
    ∃ st2, Simulator.simTick cfgHalfDay Scenario.FlashCrash entropyZero 0
        { market := Market.new "m" ⟨0.5⟩ 1 ⟨0, 777600000000000⟩
          oracle := { config := { update_frequency := 43200, noise_level := 0.1
                                  drift_rate := 0.02, mean_reversion := 0.1 }
                      current_bsi := ⟨0.5⟩, target_bsi := none }
          participants := [], current_time := 648000000000000, tick := 15
          trade_counter := 0, shockLog := [] } = .ok st2
      ∧ st2.shockLog = [] ++
          (if Scenario.FlashCrash = Scenario.FlashCrash
              ∧ numDays (648000000000000 - 0) = 7 then
            [((648000000000000 : ℤ), (-0.3 : ℚ))]
          else if Scenario.FlashCrash = Scenario.SentimentReversal
              ∧ numDays (648000000000000 - 0) = 10 then
            [((648000000000000 : ℤ), (0.4 : ℚ))]
          else if Scenario.FlashCrash = Scenario.HighVolatility
              ∧ entropyZero.shockCoin 15 = true then
            [((648000000000000 : ℤ), entropyZero.shockDraw 15)]
          else []) :=
  C4_shock_application_amended cfgHalfDay Scenario.FlashCrash entropyZero 0 _
    (by norm_num)

/-! ## C1 -/

/-- The final BSI of a finished run (`−1` on error, an impossible BSI). -/
def finalBsiOf (e : Except SimulatorError SimulationResult) : ℚ :=
  match e with
  | .ok r => r.final_bsi
  | .error _ => -1

/-- A one-day, one-tick, zero-participant configuration with an explicit
seed. -/
def cfgSeeded : SimulationConfig :=
  { duration_days := 1, num_participants := 0, initial_bsi := 0.5
    volatility := 0.2, threshold := 1, persistence_hours := 24
    update_frequency_secs := 86400, seed := some 42 }

/-- C1 is a code bug, as §9 of the spec itself flags: `Simulator::run` draws
every random quantity from the ambient `rand::thread_rng()` and never reads
`config.seed`. Formally: with the *same* seeded configuration and scenario,
two runs under different ambient entropy produce different results (here
different `final_bsi`), while changing only the seed changes nothing — the
draws are reproducible from the ambient generator alone, not from the seed. -/
theorem C1_seed_unused_code_bug :
    finalBsiOf (Simulator.run cfgSeeded Scenario.Sideways 0 entropyZero)
      ≠ finalBsiOf (Simulator.run cfgSeeded Scenario.Sideways 0 entropyNoise)
    ∧ (Simulator.run { cfgSeeded with seed := some 1 } Scenario.Sideways 0 entropyZero).toOption
      = (Simulator.run { cfgSeeded with seed := some 2 } Scenario.Sideways 0 entropyZero).toOption
    ∧ ((Simulator.run cfgSeeded Scenario.Sideways 0 entropyZero).toOption).isSome = true := by
  refine ⟨?_, ?_, ?_⟩
  · with_unfolding_all decide
  · with_unfolding_all decide
  · with_unfolding_all decide
